import Mathlib

/-!
Shallow embedding of `src/example_3_agent_langgraph.py`: a three-node
agent workflow (Orchestrator, Analyzer, Responder) over a shared typed
state, with conditional routing after the orchestrator.  The language
model is modelled as a deterministic stub `Model : String → String`
mapping a prompt to the model's reply.
-/

namespace AgentGraph

/-- The `AgentState` TypedDict: the state object passed between nodes. -/
structure AgentState where
  user_query : String
  query_type : String
  analysis : String
  final_response : String
  next_step : String
deriving DecidableEq, Repr

/-- The external model client, stubbed as a deterministic function from
prompt text to reply text (`llm.invoke(prompt).content`). -/
def Model : Type := String → String

/-- Python `str.strip()` (ASCII whitespace): drop whitespace from both
ends of the string. -/
def pyStrip (s : String) : String :=
  ⟨((s.data.dropWhile Char.isWhitespace).reverse.dropWhile Char.isWhitespace).reverse⟩

/-- Python `str.lower()` (ASCII): lowercase every character. -/
def pyLower (s : String) : String :=
  ⟨s.data.map Char.toLower⟩

/-- The classification prompt built by `orchestrator_node`. -/
def classification_prompt (query : String) : String :=
  "Classify this user query into one of these categories:\n" ++
  "- 'technical' if it's about programming, code, or technical concepts\n" ++
  "- 'greeting' if it's a greeting or casual conversation\n" ++
  "- 'general' for everything else\n\n" ++
  "Query: " ++ query ++ "\n\n" ++
  "Respond with ONLY ONE WORD: technical, greeting, or general"

/-- The normalized and validated classification: the model reply is
stripped and lowercased, and any value outside
`{technical, greeting, general}` falls back to `general`. -/
def classify (llm : Model) (query : String) : String :=
  let query_type := pyLower (pyStrip (llm (classification_prompt query)))
  if query_type = "technical" ∨ query_type = "greeting" ∨ query_type = "general" then
    query_type
  else
    "general"

/-- `orchestrator_node`: classifies the query, sets `query_type`, and
sets `next_step` to `analyzer` for technical queries and `responder`
otherwise. -/
def orchestrator_node (llm : Model) (state : AgentState) : AgentState :=
  let query_type := classify llm state.user_query
  let next_step := if query_type = "technical" then "analyzer" else "responder"
  { state with query_type := query_type, next_step := next_step }

/-- The analysis prompt built by `analyzer_node`. -/
def analysis_prompt (query : String) : String :=
  "You are a technical analyst. Analyze this query and provide:\n" ++
  "1. Key concepts involved\n" ++
  "2. Difficulty level (beginner/intermediate/advanced)\n" ++
  "3. A brief technical breakdown\n\n" ++
  "Query: " ++ query ++ "\n\n" ++
  "Keep your analysis concise (2-3 sentences)."

/-- `analyzer_node`: stores the stripped model reply in `analysis` and
routes unconditionally to `responder`. -/
def analyzer_node (llm : Model) (state : AgentState) : AgentState :=
  let analysis := pyStrip (llm (analysis_prompt state.user_query))
  { state with analysis := analysis, next_step := "responder" }

/-- The response prompt built by `responder_node` when `analysis` is
non-empty: the response is grounded in the analysis text. -/
def response_prompt_with_analysis (analysis query : String) : String :=
  "Based on this analysis:\n" ++ analysis ++ "\n\n" ++
  "Provide a clear, helpful response to the user's query: " ++ query ++ "\n\n" ++
  "Keep your response concise and practical."

/-- The response prompt built by `responder_node` when `analysis` is
empty: answered from the raw query alone. -/
def response_prompt_plain (query : String) : String :=
  "Provide a helpful response to this query: " ++ query ++ "\n\n" ++
  "Keep your response friendly and concise."

/-- The prompt `responder_node` sends: chosen by Python truthiness of
the `analysis` field (`if analysis:`). -/
def response_prompt (analysis query : String) : String :=
  if analysis ≠ "" then response_prompt_with_analysis analysis query
  else response_prompt_plain query

/-- `responder_node`: stores the stripped model reply in
`final_response` and sets `next_step` to the terminal marker `end`. -/
def responder_node (llm : Model) (state : AgentState) : AgentState :=
  let final_response := pyStrip (llm (response_prompt state.analysis state.user_query))
  { state with final_response := final_response, next_step := "end" }

/-- `route_after_orchestrator`: the routing function after the
orchestrator; returns `state["next_step"]` unchanged. -/
def route_after_orchestrator (state : AgentState) : String :=
  state.next_step

/-- An outgoing edge of a node: either unconditional
(`workflow.add_edge`) or conditional with a routing function and a
label-to-target mapping (`workflow.add_conditional_edges`). -/
inductive EdgeSpec where
  | unconditional (target : String)
  | conditional (route : AgentState → String) (mapping : List (String × String))

/-- A workflow graph: entry-node name, named nodes, and one outgoing
edge per node. -/
structure Graph where
  entry : String
  nodes : List (String × (AgentState → AgentState))
  edges : List (String × EdgeSpec)

/-- Run-time errors of the execution engine. -/
inductive RunError where
  | StepLimitExceeded
  | UnknownRoutingLabel
  | MissingNode
deriving DecidableEq, Repr

/-- Modelled from the spec: the ExecutionEngine of §4.4 (the concrete
engine is the external LangGraph library, not part of this repository).
Invoke the current node; if the produced state's `next_step` is the
terminal marker `end`, stop; otherwise follow the node's outgoing edge
(evaluating the routing function against the mapping for conditional
edges); a run that exhausts `fuel` steps fails with
`StepLimitExceeded`.  Returns the list of nodes visited together with
the final state. -/
def runAux (g : Graph) (fuel : Nat) (current : String) (state : AgentState) :
    Except RunError (List String × AgentState) :=
  match fuel with
  | 0 => .error .StepLimitExceeded
  | f + 1 =>
    match g.nodes.lookup current with
    | none => .error .MissingNode
    | some nodeFn =>
      let state' := nodeFn state
      if state'.next_step = "end" then
        .ok ([current], state')
      else
        match g.edges.lookup current with
        | none => .error .UnknownRoutingLabel
        | some (.unconditional t) =>
          (runAux g f t state').map (fun p => (current :: p.1, p.2))
        | some (.conditional route mapping) =>
          match mapping.lookup (route state') with
          | none => .error .UnknownRoutingLabel
          | some t =>
            (runAux g f t state').map (fun p => (current :: p.1, p.2))

/-- The step limit: node count × 2, as the spec recommends for this
three-node graph. -/
def step_limit : Nat := 3 * 2

/-- Modelled from the spec: `run(graph, initialState)` starts at the
entry node and executes under the step limit. -/
def run (g : Graph) (state : AgentState) : Except RunError (List String × AgentState) :=
  runAux g step_limit g.entry state

/-- `create_agent_graph`: the reference workflow.  Entry point
`orchestrator`; conditional edges from `orchestrator` via
`route_after_orchestrator` with mapping
`{analyzer ↦ analyzer, responder ↦ responder}`; unconditional edge
`analyzer → responder`; `responder → END`. -/
def create_agent_graph (llm : Model) : Graph where
  entry := "orchestrator"
  nodes := [("orchestrator", orchestrator_node llm),
            ("analyzer", analyzer_node llm),
            ("responder", responder_node llm)]
  edges := [("orchestrator",
              .conditional route_after_orchestrator
                [("analyzer", "analyzer"), ("responder", "responder")]),
            ("analyzer", .unconditional "responder"),
            ("responder", .unconditional "end")]

/-- The initial state built by `run_query`: the query plus every other
field empty. -/
def initial_state (query : String) : AgentState where
  user_query := query
  query_type := ""
  analysis := ""
  final_response := ""
  next_step := ""

/-- `run_query`: run a query through the agent graph from the fresh
initial state; returns the visited-node trace and the final state. -/
def run_query (llm : Model) (query : String) : Except RunError (List String × AgentState) :=
  run (create_agent_graph llm) (initial_state query)

/-- Big-step semantics of the execution engine: `Exec g cur s tr fin`
means one run of `g` starting at node `cur` in state `s` visits the
nodes `tr` and stops in state `fin`.  Mirrors `runAux` without the fuel
bound. -/
inductive Exec (g : Graph) : String → AgentState → List String → AgentState → Prop where
  | done (cur : String) (s : AgentState) (fn : AgentState → AgentState)
      (hn : g.nodes.lookup cur = some fn) (hend : (fn s).next_step = "end") :
      Exec g cur s [cur] (fn s)
  | stepUncond (cur : String) (s : AgentState) (fn : AgentState → AgentState)
      (t : String) (tr : List String) (fin : AgentState)
      (hn : g.nodes.lookup cur = some fn) (hend : (fn s).next_step ≠ "end")
      (he : g.edges.lookup cur = some (.unconditional t))
      (hrest : Exec g t (fn s) tr fin) :
      Exec g cur s (cur :: tr) fin
  | stepCond (cur : String) (s : AgentState) (fn : AgentState → AgentState)
      (route : AgentState → String) (mapping : List (String × String)) (t : String)
      (tr : List String) (fin : AgentState)
      (hn : g.nodes.lookup cur = some fn) (hend : (fn s).next_step ≠ "end")
      (he : g.edges.lookup cur = some (.conditional route mapping))
      (hm : mapping.lookup (route (fn s)) = some t)
      (hrest : Exec g t (fn s) tr fin) :
      Exec g cur s (cur :: tr) fin

/-- A stub model whose classification reply is `greeting` (and hence
whose reply to every other prompt is also `greeting`). -/
def stub_greeting : Model := fun _ => "greeting"

/-- A stub model whose every reply is the unrecognized word `maybe`. -/
def stub_maybe : Model := fun _ => "maybe"

/-- The stub model of the spec's end-to-end example: classification
reply `technical`, analysis reply `ANALYSIS`, response reply
`RESPONSE`. -/
def stub_technical : Model := fun p =>
  if p = classification_prompt "Explain async/await" then "technical"
  else if p = analysis_prompt "Explain async/await" then "ANALYSIS"
  else "RESPONSE"

/-- A malformed single-node graph that loops forever: its node never
sets `next_step` to the terminal marker, and its edge points back to
itself. -/
def cyclic_graph : Graph where
  entry := "loop"
  nodes := [("loop", fun s => { s with next_step := "loop" })]
  edges := [("loop", .unconditional "loop")]

/-- The final state of a run of the reference workflow on the query
`hello` with the `greeting` classification stub. -/
def greeting_final : AgentState :=
  responder_node stub_greeting (orchestrator_node stub_greeting (initial_state "hello"))

end AgentGraph

namespace AgentGraph

/-- The validated classification is always one of the three recognized
labels. -/
lemma classify_mem (llm : Model) (q : String) :
    classify llm q = "technical" ∨ classify llm q = "greeting" ∨ classify llm q = "general" := by
  simp only [classify]
  split
  · assumption
  · simp

/-- `orchestrator_node` routes by its classification. -/
lemma orchestrator_node_next_step (llm : Model) (s : AgentState) :
    (orchestrator_node llm s).next_step =
      if classify llm s.user_query = "technical" then "analyzer" else "responder" := rfl

/-- Computation of the full technical-path run. -/
lemma run_query_technical (llm : Model) (q : String) (h : classify llm q = "technical") :
    run_query llm q = .ok (["orchestrator", "analyzer", "responder"],
      responder_node llm (analyzer_node llm (orchestrator_node llm (initial_state q)))) := by
  simp [run_query, run, step_limit, create_agent_graph, runAux, List.lookup,
        orchestrator_node, analyzer_node, responder_node, route_after_orchestrator,
        initial_state, h, Except.map]

/-- Computation of the full non-technical-path run. -/
lemma run_query_not_technical (llm : Model) (q : String) (h : classify llm q ≠ "technical") :
    run_query llm q = .ok (["orchestrator", "responder"],
      responder_node llm (orchestrator_node llm (initial_state q))) := by
  simp [run_query, run, step_limit, create_agent_graph, runAux, List.lookup,
        orchestrator_node, analyzer_node, responder_node, route_after_orchestrator,
        initial_state, h, Except.map]

/-- With any remaining fuel, the engine stops right after invoking the
responder, whatever the incoming state. -/
lemma runAux_responder (llm : Model) (f : Nat) (s : AgentState) :
    runAux (create_agent_graph llm) (f + 1) "responder" s =
      .ok (["responder"], responder_node llm s) := by
  simp [runAux, create_agent_graph, List.lookup, responder_node]

end AgentGraph

namespace AgentGraph

/-- A successful fuelled run is a big-step execution. -/
lemma runAux_exec (g : Graph) (fuel : Nat) :
    ∀ (cur : String) (s : AgentState) (tr : List String) (fin : AgentState),
      runAux g fuel cur s = .ok (tr, fin) → Exec g cur s tr fin := by
  induction fuel with
  | zero => intro cur s tr fin h; simp [runAux] at h
  | succ f ih =>
    intro cur s tr fin h
    rw [runAux] at h
    cases hn : g.nodes.lookup cur with
    | none => rw [hn] at h; simp at h
    | some fn =>
      rw [hn] at h
      simp only at h
      by_cases hend : (fn s).next_step = "end"
      · rw [if_pos hend] at h
        simp only [Except.ok.injEq, Prod.mk.injEq] at h
        obtain ⟨htr, hfin⟩ := h
        subst htr; subst hfin
        exact .done cur s fn hn hend
      · rw [if_neg hend] at h
        cases he : g.edges.lookup cur with
        | none => rw [he] at h; simp at h
        | some e =>
          rw [he] at h
          cases e with
          | unconditional t =>
            simp only at h
            cases hr : runAux g f t (fn s) with
            | error err => rw [hr] at h; simp [Except.map] at h
            | ok p =>
              rw [hr] at h
              simp only [Except.map, Except.ok.injEq, Prod.mk.injEq] at h
              obtain ⟨htr, hfin⟩ := h
              subst htr; subst hfin
              exact .stepUncond cur s fn t p.1 p.2 hn hend he (ih t (fn s) p.1 p.2 hr)
          | conditional route mapping =>
            simp only at h
            cases hm : mapping.lookup (route (fn s)) with
            | none => rw [hm] at h; simp at h
            | some t =>
              rw [hm] at h
              simp only at h
              cases hr : runAux g f t (fn s) with
              | error err => rw [hr] at h; simp [Except.map] at h
              | ok p =>
                rw [hr] at h
                simp only [Except.map, Except.ok.injEq, Prod.mk.injEq] at h
                obtain ⟨htr, hfin⟩ := h
                subst htr; subst hfin
                exact .stepCond cur s fn route mapping t p.1 p.2 hn hend he hm
                  (ih t (fn s) p.1 p.2 hr)

end AgentGraph

namespace AgentGraph

set_option maxRecDepth 10000

/-- The big-step engine semantics is deterministic: from a fixed node
and state, any two executions visit the same nodes and stop in the
same final state. -/
lemma exec_deterministic (g : Graph) (cur : String) (s : AgentState)
    (tr₁ : List String) (f₁ : AgentState) (h₁ : Exec g cur s tr₁ f₁) :
    ∀ tr₂ f₂, Exec g cur s tr₂ f₂ → tr₁ = tr₂ ∧ f₁ = f₂ := by
  induction h₁ with
  | done cur s fn hn hend =>
    intro tr₂ f₂ h₂
    cases h₂ with
    | done _ _ fn' hn' hend' =>
      rw [hn] at hn'; injection hn' with h; subst h
      exact ⟨rfl, rfl⟩
    | stepUncond _ _ fn' t' tr' fin' hn' hend' he' hrest' =>
      rw [hn] at hn'; injection hn' with h; subst h
      exact absurd hend hend'
    | stepCond _ _ fn' route' mapping' t' tr' fin' hn' hend' he' hm' hrest' =>
      rw [hn] at hn'; injection hn' with h; subst h
      exact absurd hend hend'
  | stepUncond cur s fn t tr fin hn hend he hrest ih =>
    intro tr₂ f₂ h₂
    cases h₂ with
    | done _ _ fn' hn' hend' =>
      rw [hn] at hn'; injection hn' with h; subst h
      exact absurd hend' hend
    | stepUncond _ _ fn' t' tr' fin' hn' hend' he' hrest' =>
      rw [hn] at hn'; injection hn' with h; subst h
      rw [he] at he'; injection he' with h2; injection h2 with h3; subst h3
      obtain ⟨ha, hb⟩ := ih tr' f₂ hrest'
      exact ⟨by rw [ha], hb⟩
    | stepCond _ _ fn' route' mapping' t' tr' fin' hn' hend' he' hm' hrest' =>
      rw [he] at he'; injection he' with h2
      exact EdgeSpec.noConfusion h2
  | stepCond cur s fn route mapping t tr fin hn hend he hm hrest ih =>
    intro tr₂ f₂ h₂
    cases h₂ with
    | done _ _ fn' hn' hend' =>
      rw [hn] at hn'; injection hn' with h; subst h
      exact absurd hend' hend
    | stepUncond _ _ fn' t' tr' fin' hn' hend' he' hrest' =>
      rw [he] at he'; injection he' with h2
      exact EdgeSpec.noConfusion h2
    | stepCond _ _ fn' route' mapping' t' tr' fin' hn' hend' he' hm' hrest' =>
      rw [hn] at hn'; injection hn' with h; subst h
      rw [he] at he'; injection he' with h2
      injection h2 with h3 h4; subst h3; subst h4
      rw [hm] at hm'; injection hm' with h5; subst h5
      obtain ⟨ha, hb⟩ := ih tr' f₂ hrest'
      exact ⟨by rw [ha], hb⟩

end AgentGraph

namespace AgentGraph

/-- C1: every run of the reference workflow visits
`orchestrator, analyzer, responder` in order when the query is
classified `technical`, and only `orchestrator, responder` (skipping
the analyzer) for every other classification; no run revisits a node
or makes more than 3 node invocations. -/
theorem c1_routing_correctness (llm : Model) (q : String) :
    ∃ tr fin, run_query llm q = .ok (tr, fin) ∧
      tr = (if classify llm q = "technical" then
              ["orchestrator", "analyzer", "responder"]
            else
              ["orchestrator", "responder"]) ∧
      tr.Nodup ∧ tr.length ≤ 3 := by
  by_cases h : classify llm q = "technical"
  · exact ⟨["orchestrator", "analyzer", "responder"], _,
      run_query_technical llm q h, by rw [if_pos h], by decide, by decide⟩
  · exact ⟨["orchestrator", "responder"], _,
      run_query_not_technical llm q h, by rw [if_neg h], by decide, by decide⟩

/-- C2: whenever the (stripped, lowercased) model reply to the
classification prompt is none of `technical`, `greeting`, `general`,
the orchestrator sets `query_type` to `general` and the analyzer is
never invoked on that run. -/
theorem c2_unrecognized_reply_defaults_to_general (llm : Model) (q : String)
    (h₁ : pyLower (pyStrip (llm (classification_prompt q))) ≠ "technical")
    (h₂ : pyLower (pyStrip (llm (classification_prompt q))) ≠ "greeting")
    (h₃ : pyLower (pyStrip (llm (classification_prompt q))) ≠ "general") :
    classify llm q = "general" ∧
    (orchestrator_node llm (initial_state q)).query_type = "general" ∧
    run_query llm q = .ok (["orchestrator", "responder"],
      responder_node llm (orchestrator_node llm (initial_state q))) := by
  have hc : classify llm q = "general" := by
    simp [classify, h₁, h₂, h₃]
  exact ⟨hc, hc, run_query_not_technical llm q (by rw [hc]; decide)⟩

/-- Witness for C2 at the stub whose reply is `maybe`. -/
theorem c2_witness :
    pyLower (pyStrip (stub_maybe (classification_prompt "hi"))) ≠ "technical" ∧
    pyLower (pyStrip (stub_maybe (classification_prompt "hi"))) ≠ "greeting" ∧
    pyLower (pyStrip (stub_maybe (classification_prompt "hi"))) ≠ "general" ∧
    (classify stub_maybe "hi" = "general" ∧
     (orchestrator_node stub_maybe (initial_state "hi")).query_type = "general" ∧
     run_query stub_maybe "hi" = .ok (["orchestrator", "responder"],
       responder_node stub_maybe (orchestrator_node stub_maybe (initial_state "hi")))) :=
  ⟨by decide, by decide, by decide,
   c2_unrecognized_reply_defaults_to_general stub_maybe "hi"
     (by decide) (by decide) (by decide)⟩

/-- C3: each node only writes the fields it semantically owns; every
other field of the returned state equals its value in the input state
(the orchestrator changes only `query_type` and `next_step`, the
analyzer only `analysis` and `next_step`, the responder only
`final_response` and `next_step`). -/
theorem c3_frame_conditions (llm : Model) (s : AgentState) :
    ((orchestrator_node llm s).user_query = s.user_query ∧
     (orchestrator_node llm s).analysis = s.analysis ∧
     (orchestrator_node llm s).final_response = s.final_response) ∧
    ((analyzer_node llm s).user_query = s.user_query ∧
     (analyzer_node llm s).query_type = s.query_type ∧
     (analyzer_node llm s).final_response = s.final_response) ∧
    ((responder_node llm s).user_query = s.user_query ∧
     (responder_node llm s).query_type = s.query_type ∧
     (responder_node llm s).analysis = s.analysis) :=
  ⟨⟨rfl, rfl, rfl⟩, ⟨rfl, rfl, rfl⟩, ⟨rfl, rfl, rfl⟩⟩

end AgentGraph

namespace AgentGraph

set_option maxRecDepth 10000

/-- C4: the execution engine (modelled from the spec, since the
concrete engine is the external LangGraph library) enforces a step
limit of node count × 2 = 6: every run of the reference workflow
terminates successfully within it, running with exhausted fuel fails
with the fatal `StepLimitExceeded` error, and even a malformed cyclic
graph ends in `StepLimitExceeded` rather than a silent infinite
loop. -/
theorem c4_step_limit_enforced (llm : Model) (q : String)
    (g : Graph) (cur : String) (s s' : AgentState) :
    (∃ r, run_query llm q = .ok r) ∧
    runAux g 0 cur s = .error .StepLimitExceeded ∧
    run cyclic_graph s' = .error .StepLimitExceeded ∧
    step_limit = 3 * 2 := by
  refine ⟨?_, rfl, ?_, rfl⟩
  · by_cases h : classify llm q = "technical"
    · exact ⟨_, run_query_technical llm q h⟩
    · exact ⟨_, run_query_not_technical llm q h⟩
  · simp [run, step_limit, runAux, cyclic_graph, List.lookup, Except.map]

/-- C5: the responder stores the stripped model reply in
`final_response`, sets `next_step` to the terminal marker `end`, and
consequently the engine stops right after invoking it, whatever the
incoming state and the remaining fuel. -/
theorem c5_responder_is_terminal (llm : Model) (s : AgentState) (f : Nat) :
    (responder_node llm s).final_response =
      pyStrip (llm (response_prompt s.analysis s.user_query)) ∧
    (responder_node llm s).next_step = "end" ∧
    runAux (create_agent_graph llm) (f + 1) "responder" s =
      .ok (["responder"], responder_node llm s) :=
  ⟨rfl, rfl, runAux_responder llm f s⟩

/-- C6: the responder's prompt is conditional on `analysis`: when
`analysis` is empty the prompt is the plain prompt built from the raw
query alone, and when it is non-empty the prompt contains the analysis
text. -/
theorem c6_prompt_grounded_in_analysis (llm : Model) (s : AgentState) :
    responder_node llm s = { s with
      final_response := pyStrip (llm (response_prompt s.analysis s.user_query)),
      next_step := "end" } ∧
    (if s.analysis = "" then
      response_prompt s.analysis s.user_query = response_prompt_plain s.user_query
    else
      ∃ l r, (response_prompt s.analysis s.user_query).data =
        l ++ s.analysis.data ++ r) := by
  refine ⟨rfl, ?_⟩
  by_cases h : s.analysis = ""
  · rw [if_pos h]
    simp [response_prompt, h]
  · rw [if_neg h]
    refine ⟨("Based on this analysis:\n" : String).data,
      ("\n\n" ++ "Provide a clear, helpful response to the user's query: " ++
        s.user_query ++ "\n\n" ++ "Keep your response concise and practical." :
        String).data, ?_⟩
    simp [response_prompt, h, response_prompt_with_analysis, String.data_append,
      List.append_assoc]

/-- C7: the pipeline is deterministic: two executions of the reference
workflow from the same node and state (against the same stubbed model)
visit the same nodes and yield the same final state. -/
theorem c7_run_deterministic (llm : Model) (cur : String) (s : AgentState)
    (tr₁ tr₂ : List String) (f₁ f₂ : AgentState)
    (h₁ : Exec (create_agent_graph llm) cur s tr₁ f₁)
    (h₂ : Exec (create_agent_graph llm) cur s tr₂ f₂) :
    tr₁ = tr₂ ∧ f₁ = f₂ :=
  exec_deterministic (create_agent_graph llm) cur s tr₁ f₁ h₁ tr₂ f₂ h₂

/-- Witness for C7: two (identical) executions of the greeting run. -/
theorem c7_witness :
    Exec (create_agent_graph stub_greeting) "orchestrator" (initial_state "hello")
      ["orchestrator", "responder"] greeting_final ∧
    (["orchestrator", "responder"] = ["orchestrator", "responder"] ∧
      greeting_final = greeting_final) := by
  have hex : Exec (create_agent_graph stub_greeting) "orchestrator"
      (initial_state "hello") ["orchestrator", "responder"] greeting_final :=
    runAux_exec (create_agent_graph stub_greeting) step_limit "orchestrator"
      (initial_state "hello") ["orchestrator", "responder"] greeting_final rfl
  exact ⟨hex, c7_run_deterministic stub_greeting "orchestrator" (initial_state "hello")
    ["orchestrator", "responder"] ["orchestrator", "responder"]
    greeting_final greeting_final hex hex⟩

end AgentGraph

namespace AgentGraph

set_option maxRecDepth 10000

/-- C8: the spec's end-to-end example: on the query
`Explain async/await` with the stub classifying `technical` and then
generating `ANALYSIS` and `RESPONSE`, the final state has
`final_response = RESPONSE` and `analysis = ANALYSIS`. -/
theorem c8_end_to_end_example :
    (run_query stub_technical "Explain async/await").map
      (fun p => (p.2.final_response, p.2.analysis)) =
    .ok ("RESPONSE", "ANALYSIS") := rfl

/-- C9: every state the orchestrator produces has `next_step` equal to
`analyzer` or `responder`; the routing function returns that field
unchanged, and its value is always found in the conditional-edge
mapping registered for the orchestrator, so the unknown-routing-label
branch is unreachable in the reference workflow. -/
theorem c9_routing_label_always_registered (llm : Model) (s : AgentState) :
    ((orchestrator_node llm s).next_step = "analyzer" ∨
     (orchestrator_node llm s).next_step = "responder") ∧
    route_after_orchestrator (orchestrator_node llm s) =
      (orchestrator_node llm s).next_step ∧
    (create_agent_graph llm).edges.lookup "orchestrator" =
      some (.conditional route_after_orchestrator
        [("analyzer", "analyzer"), ("responder", "responder")]) ∧
    (List.lookup (route_after_orchestrator (orchestrator_node llm s))
      [("analyzer", "analyzer"), ("responder", "responder")]).isSome = true := by
  refine ⟨?_, rfl, rfl, ?_⟩
  · by_cases h : classify llm s.user_query = "technical"
    · exact Or.inl (by simp [orchestrator_node, h])
    · exact Or.inr (by simp [orchestrator_node, h])
  · by_cases h : classify llm s.user_query = "technical" <;>
      simp [orchestrator_node, route_after_orchestrator, List.lookup, h]

/-- C10: in the final state of every run, if the query was not
classified `technical` then `analysis` still equals its initial (empty)
value: the analyzer is the only node writing `analysis` and it is only
reached on the technical path. -/
theorem c10_analysis_empty_unless_technical (llm : Model) (q : String)
    (tr : List String) (fin : AgentState)
    (h : run_query llm q = .ok (tr, fin)) (hq : fin.query_type ≠ "technical") :
    fin.analysis = (initial_state q).analysis ∧ fin.analysis = "" := by
  by_cases hc : classify llm q = "technical"
  · rw [run_query_technical llm q hc] at h
    simp only [Except.ok.injEq, Prod.mk.injEq] at h
    obtain ⟨-, hfin⟩ := h
    exact absurd (hfin ▸ hc : fin.query_type = "technical") hq
  · rw [run_query_not_technical llm q hc] at h
    simp only [Except.ok.injEq, Prod.mk.injEq] at h
    obtain ⟨-, hfin⟩ := h
    exact ⟨hfin ▸ rfl, hfin ▸ rfl⟩

/-- Witness for C10 at the greeting stub. -/
theorem c10_witness :
    run_query stub_greeting "hello" =
      .ok (["orchestrator", "responder"], greeting_final) ∧
    greeting_final.query_type ≠ "technical" ∧
    (greeting_final.analysis = (initial_state "hello").analysis ∧
     greeting_final.analysis = "") :=
  ⟨rfl, by decide,
   c10_analysis_empty_unless_technical stub_greeting "hello"
     ["orchestrator", "responder"] greeting_final rfl (by decide)⟩

end AgentGraph
